import Mathlib

/-!
Verification of the movie-database mobile client's data-access layer.

The definitions below are a shallow embedding of the TypeScript source:
  * `src/services/api-client.ts` — the shared axios client, its request and
    response interceptors, and the `logout` helper;
  * `src/contexts/auth-context.tsx` — the auth reducer, the register success
    path, and `logoutUser`;
  * `src/services/types.ts` — the zod pagination / movie response schemas;
  * `src/unnamed/part_000` (people service) and `src/unnamed/part_001`
    (genre service) — the operations that do validate with zod;
  * `src/services/movie-service.ts` — `searchMovies` query building and the
    unvalidated CRUD operations;
  * `src/app/(tabs)/home.tsx` — the infinite-scroll accumulation effect.

Persistent key-value storage (AsyncStorage) is modelled as an association
list of string keys to string values; HTTP headers likewise.  Effects that
the claims quantify over (network check, storage reads/removals, the actual
HTTP send) are recorded in an explicit trace.
-/

namespace MovieApp

/-! ### Storage model (AsyncStorage) -/

/-- `TOKEN_STORAGE_KEY` from `src/constants/api.ts`. -/
def TOKEN_STORAGE_KEY : String := "movie_database_auth_token"

/-- `USER_DATA_KEY` from `src/contexts/auth-context.tsx`. -/
def USER_DATA_KEY : String := "user_data"

/-- AsyncStorage contents: an association list from keys to stored strings. -/
abbrev Store := List (String × String)

/-- `AsyncStorage.getItem`: the value stored under `k`, if any. -/
def Store.get (s : Store) (k : String) : Option String :=
  (s.find? (fun kv => kv.1 == k)).map (·.2)

/-- `AsyncStorage.removeItem`: drop every entry under `k`. -/
def Store.remove (s : Store) (k : String) : Store :=
  s.filter (fun kv => kv.1 != k)

/-- `AsyncStorage.setItem`: overwrite the entry under `k` with `v`. -/
def Store.set (s : Store) (k v : String) : Store :=
  s.filter (fun kv => kv.1 != k) ++ [(k, v)]

theorem find?_filter_of_imp {α : Type} (l : List α) (p q : α → Bool)
    (h : ∀ x, p x = true → q x = true) :
    (l.filter q).find? p = l.find? p := by
  induction l with
  | nil => rfl
  | cons a l ih =>
    by_cases hq : q a = true
    · rw [List.filter_cons_of_pos hq]
      by_cases hp : p a = true
      · rw [List.find?_cons_of_pos _ hp, List.find?_cons_of_pos _ hp]
      · rw [List.find?_cons_of_neg _ hp, List.find?_cons_of_neg _ hp]
        exact ih
    · have hp : p a = false := by
        cases hpa : p a
        · rfl
        · exact absurd (h a hpa) hq
      rw [List.filter_cons_of_neg hq, List.find?_cons_of_neg _ (by simp [hp])]
      exact ih

theorem find?_filter_ne_none (l : List (String × String)) (k : String) :
    (l.filter (fun kv => kv.1 != k)).find? (fun kv => kv.1 == k) = none := by
  apply List.find?_eq_none.mpr
  intro x hx
  have h2 := (List.mem_filter.mp hx).2
  simp only [bne_iff_ne, ne_eq] at h2
  simp only [beq_iff_eq]
  exact h2

theorem find?_append_of_left_none {α : Type} {l₁ l₂ : List α} {p : α → Bool}
    (h : l₁.find? p = none) : (l₁ ++ l₂).find? p = l₂.find? p := by
  induction l₁ with
  | nil => rfl
  | cons a l ih =>
    have hp : p a = false := by
      cases hpa : p a
      · rfl
      · rw [List.find?_cons_of_pos _ hpa] at h
        cases h
    have h' : l.find? p = none := by
      rwa [List.find?_cons_of_neg _ (by simp [hp])] at h
    rw [List.cons_append, List.find?_cons_of_neg _ (by simp [hp])]
    exact ih h'

theorem Store.get_remove_self (s : Store) (k : String) :
    (s.remove k).get k = none := by
  simp [Store.get, Store.remove, find?_filter_ne_none]

theorem Store.get_remove_other (s : Store) (k k' : String) (h : k' ≠ k) :
    (s.remove k).get k' = s.get k' := by
  unfold Store.get Store.remove
  rw [find?_filter_of_imp]
  intro x hx
  simp only [beq_iff_eq] at hx
  simp only [bne_iff_ne, ne_eq, hx]
  exact h

/-! ### HTTP headers -/

/-- Request headers: an association list from header names to values. -/
abbrev Headers := List (String × String)

/-- Read a header value (axios `config.headers.X`). -/
def getHeader (h : Headers) (k : String) : Option String :=
  (h.find? (fun kv => kv.1 == k)).map (·.2)

/-- Set a header value, overwriting any previous one
(axios `config.headers.X = v`). -/
def setHeader (h : Headers) (k v : String) : Headers :=
  h.filter (fun kv => kv.1 != k) ++ [(k, v)]

theorem getHeader_setHeader_self (h : Headers) (k v : String) :
    getHeader (setHeader h k v) k = some v := by
  unfold getHeader setHeader
  rw [find?_append_of_left_none (find?_filter_ne_none h k)]
  simp [List.find?]

/-! ### The shared HTTP client (`src/services/api-client.ts`) -/

/-- JavaScript truthiness of an optional string (`undefined`, `null` and
`''` are falsy). -/
def jsTruthy (o : Option String) : Bool :=
  match o with
  | some s => !(s == "")
  | none => false

/-- Observable effects performed by the client while handling one request. -/
inductive Effect where
  | netCheck
  | storageRead (key : String)
  | storageRemove (key : String)
  | httpSend (headers : Headers)
deriving DecidableEq

/-- The request interceptor: checks `NetInfo.fetch().isConnected` first,
rejecting with `'No internet connection'` when offline; otherwise reads the
token from AsyncStorage and, guarded by `if (token)` — JavaScript
truthiness, so a null or empty-string read attaches nothing — sets
`config.headers.Authorization = 'Bearer ' + token`.  Returns the resulting
config (or the rejection) together with the trace of effects performed. -/
def requestInterceptor (isConnected : Bool) (store : Store) (config : Headers) :
    Except String Headers × List Effect :=
  if isConnected then
    let token := store.get TOKEN_STORAGE_KEY
    if jsTruthy token then
      (Except.ok
         (setHeader config "Authorization" ("Bearer " ++ token.getD "")),
       [Effect.netCheck, Effect.storageRead TOKEN_STORAGE_KEY])
    else
      (Except.ok config,
       [Effect.netCheck, Effect.storageRead TOKEN_STORAGE_KEY])
  else
    (Except.error "No internet connection", [Effect.netCheck])

/-- One axios dispatch through the shared client: the request interceptor
runs first; only when it succeeds is the HTTP transfer performed, with the
headers the interceptor produced. -/
def dispatchRequest (isConnected : Bool) (store : Store) (config : Headers) :
    Except String Headers × List Effect :=
  match requestInterceptor isConnected store config with
  | (Except.ok cfg, tr) => (Except.ok cfg, tr ++ [Effect.httpSend cfg])
  | (Except.error e, tr) => (Except.error e, tr)

/-- An axios error as seen by the response interceptor: the HTTP status of
`error.response` (absent for pure transport failures) and a message. -/
structure AxiosError where
  status : Option Nat
  message : String
deriving DecidableEq

/-- Outcome of the response-error interceptor: either the original error is
passed through unmodified, or the session-expired rejection replaces it. -/
inductive RespOutcome where
  | passthrough (e : AxiosError)
  | sessionExpired (msg : String)
deriving DecidableEq

/-- The helper `logout` in `api-client.ts`: clears only the token key, with
no API call. -/
def apiLogout (store : Store) : Store :=
  store.remove TOKEN_STORAGE_KEY

/-- The response-error interceptor: on status 401 it awaits `logout()` and
rejects with `'Session expired. Please login again.'`; any other error is
re-rejected unmodified.  Returns the outcome, the updated storage, and the
trace of effects performed. -/
def responseErrorInterceptor (e : AxiosError) (store : Store) :
    RespOutcome × Store × List Effect :=
  if e.status = some 401 then
    (RespOutcome.sessionExpired "Session expired. Please login again.",
     apiLogout store, [Effect.storageRemove TOKEN_STORAGE_KEY])
  else
    (RespOutcome.passthrough e, store, [])

/-! ### Auth session state (`src/contexts/auth-context.tsx`) -/

/-- JavaScript `a || b` on an optional string field. -/
def jsOr (o : Option String) (dflt : String) : String :=
  match o with
  | some s => if s == "" then dflt else s
  | none => dflt

/-- The `User` object: `{ username, role }`. -/
structure User where
  username : String
  role : String
deriving DecidableEq

/-- The auth state: `{ user, isAuthenticated, isLoading, error }`. -/
structure AuthState where
  user : Option User
  isAuthenticated : Bool
  isLoading : Bool
  error : Option String
deriving DecidableEq

/-- The eight reducer actions of `auth-context.tsx`. -/
inductive AuthAction where
  | loginRequest
  | loginSuccess (payload : User)
  | loginFailure (payload : String)
  | registerRequest
  | registerSuccess (payload : User)
  | registerFailure (payload : String)
  | logout
  | clearError
deriving DecidableEq

/-- `initialState` of the auth context. -/
def initialState : AuthState :=
  { user := none, isAuthenticated := false, isLoading := true, error := none }

/-- `authReducer`, case for case as in the source. -/
def authReducer (state : AuthState) (action : AuthAction) : AuthState :=
  match action with
  | AuthAction.loginRequest =>
      { state with isLoading := true, error := none }
  | AuthAction.registerRequest =>
      { state with isLoading := true, error := none }
  | AuthAction.loginSuccess u =>
      { state with isAuthenticated := true, user := some u,
                   isLoading := false, error := none }
  | AuthAction.registerSuccess u =>
      { state with isAuthenticated := true, user := some u,
                   isLoading := false, error := none }
  | AuthAction.loginFailure m =>
      { state with isAuthenticated := false, user := none,
                   isLoading := false, error := some m }
  | AuthAction.registerFailure m =>
      { state with isAuthenticated := false, user := none,
                   isLoading := false, error := some m }
  | AuthAction.logout =>
      { state with isAuthenticated := false, user := none,
                   isLoading := false, error := none }
  | AuthAction.clearError =>
      { state with error := none }

/-- States reachable from `initialState` by reducer actions. -/
inductive Reachable : AuthState → Prop where
  | init : Reachable initialState
  | step (s : AuthState) (a : AuthAction) :
      Reachable s → Reachable (authReducer s a)

/-- `JSON.stringify` of a user object, as persisted under `USER_DATA_KEY`. -/
def serializeUser (u : User) : String :=
  "\x7b\"username\":\"" ++ u.username ++ "\",\"role\":\"" ++ u.role ++ "\"\x7d"

/-- The body of a successful `POST /auth/register` response, with the three
fields the register function reads. -/
structure RegisterResponse where
  username : Option String
  role : Option String
  token : Option String
deriving DecidableEq

/-- The success path of `register` in `auth-context.tsx` after the HTTP call
resolves: builds the user from the response (falling back to the submitted
username and role `'user'`), persists token and user data only when the
response carries a (truthy) token, dispatches `REGISTER_SUCCESS`, and
returns `true`. -/
def registerOnSuccess (username : String) (resp : RegisterResponse)
    (store : Store) : Store × AuthAction × Bool :=
  let user : User :=
    { username := jsOr resp.username username, role := jsOr resp.role "user" }
  let store' :=
    if jsTruthy resp.token then
      (store.set TOKEN_STORAGE_KEY (resp.token.getD "")).set USER_DATA_KEY
        (serializeUser user)
    else store
  (store', AuthAction.registerSuccess user, true)

/-- `logoutUser` in `auth-context.tsx`, storage part: `logout()` from the
api client followed by removal of the user-data key. -/
def logoutUserStorage (store : Store) : Store :=
  (apiLogout store).remove USER_DATA_KEY

/-! ### Movies, search query building (`src/services/movie-service.ts`) -/

/-- The `Movie` interface of `movie-service.ts` (optional fields are
`Option`s). -/
structure Movie where
  id : Int
  title : String
  releaseYear : Int
  plot : Option String
  runtimeMinutes : Option Int
  posterUrl : Option String
  directorName : Option String
  genres : Option (List String)
  actors : Option (List String)
deriving DecidableEq

/-- A movie with only the required fields populated. -/
def mkMovie (n : Int) (t : String) : Movie :=
  { id := n, title := t, releaseYear := 2000, plot := none,
    runtimeMinutes := none, posterUrl := none, directorName := none,
    genres := none, actors := none }

/-- JavaScript truthiness of an optional number (`undefined` and `0` are
falsy). -/
def jsTruthyInt (o : Option Int) : Bool :=
  match o with
  | some n => !(n == 0)
  | none => false

/-- JavaScript `a || b` on an optional number field. -/
def jsOrInt (o : Option Int) (dflt : Int) : Int :=
  match o with
  | some n => if n == 0 then dflt else n
  | none => dflt

/-- `MovieSearchParams` from `movie-service.ts`. -/
structure MovieSearchParams where
  pageNumber : Option Int := none
  pageSize : Option Int := none
  searchTerm : Option String := none
  sortBy : Option String := none
  sortOrder : Option String := none
  releaseYear : Option Int := none
  genreIds : Option (List Int) := none
deriving DecidableEq

/-- The `URLSearchParams` built by `MovieService.searchMovies`, as the
ordered list of appended key/value pairs: conditional basic parameters
first, then `version`, then one `GenreIds` entry per genre id when the
list is present and non-empty. -/
def searchMoviesQuery (p : MovieSearchParams) : List (String × String) :=
  (if jsTruthy p.searchTerm then [("SearchTerm", p.searchTerm.getD "")]
   else [])
  ++ [("PageNumber", toString (jsOrInt p.pageNumber 1))]
  ++ [("PageSize", toString (jsOrInt p.pageSize 10))]
  ++ (if jsTruthy p.sortBy then [("SortBy", p.sortBy.getD "")] else [])
  ++ (if jsTruthy p.sortOrder then [("SortOrder", p.sortOrder.getD "")]
      else [])
  ++ (if jsTruthyInt p.releaseYear then
        [("ReleaseYear", toString (p.releaseYear.getD 0))]
      else [])
  ++ [("version", "v1")]
  ++ (match p.genreIds with
      | some ids =>
          if ids.length > 0 then ids.map (fun g => ("GenreIds", toString g))
          else []
      | none => [])

/-! ### Infinite-scroll accumulation (`src/app/(tabs)/home.tsx`) -/

/-- The `allMovies` update effect of the home screen: when a result for
page 1 arrives the accumulated list is replaced by its items, otherwise the
items are appended to the accumulated list. -/
def accumulate (page : Nat) (items : List Movie) (prev : List Movie) :
    List Movie :=
  if page == 1 then items else prev ++ items

/-- Folding the effect over a sequence of arriving `(page, items)` results,
starting from the initial empty accumulated list. -/
def accumulateRun (updates : List (Nat × List Movie)) : List Movie :=
  updates.foldl (fun prev pu => accumulate pu.1 pu.2 prev) []

/-! ### Response bodies and zod schemas
(`src/services/types.ts`, people service, genre service) -/

/-- A JSON value, as a response body arrives from the server (numbers
restricted to integers, which is all the claims exercise). -/
inductive Json where
  | null
  | bool (b : Bool)
  | num (n : Int)
  | str (s : String)
  | arr (xs : List Json)
  | obj (fields : List (String × Json))

/-- Look up a key among an object's fields. -/
def jLookup (fields : List (String × Json)) (k : String) : Option Json :=
  (fields.find? (fun kv => kv.1 == k)).map (·.2)

/-- Field access on a JSON value. -/
def jGet (j : Json) (k : String) : Option Json :=
  match j with
  | Json.obj fs => jLookup fs k
  | _ => none

/-- `z.number()` acceptance. -/
def isNum : Json → Bool
  | Json.num _ => true
  | _ => false

/-- `z.string()` acceptance. -/
def isStr : Json → Bool
  | Json.str _ => true
  | _ => false

/-- `z.boolean()` acceptance. -/
def isBool : Json → Bool
  | Json.bool _ => true
  | _ => false

/-- `z.string().nullable()` acceptance. -/
def isNullableStr : Json → Bool
  | Json.str _ => true
  | Json.null => true
  | _ => false

/-- `z.array(z.string())` acceptance. -/
def isStrArr : Json → Bool
  | Json.arr xs => xs.all isStr
  | _ => false

/-- A required object key whose value must pass `p`. -/
def jhas (j : Json) (k : String) (p : Json → Bool) : Bool :=
  match jGet j k with
  | some v => p v
  | none => false

/-- An `.optional()` / `.default(...)` object key: absent is fine, a present
value must pass `p`. -/
def joptional (j : Json) (k : String) (p : Json → Bool) : Bool :=
  match jGet j k with
  | some v => p v
  | none => true

/-- The typed value produced when a body passes `PaginationSchema` of
`types.ts`: `{ items, totalCount, pageNumber, pageSize, totalPages,
hasPrevious, hasNext }`. -/
structure PaginationEnvelope where
  items : List Json
  totalCount : Int
  pageNumber : Int
  pageSize : Int
  totalPages : Int
  hasPrevious : Bool
  hasNext : Bool

/-- `PaginationSchema.parse`: accepts an object whose `items` is an array
(of anything), whose four count fields are numbers and whose two flags are
booleans; extra keys are ignored. Returns the typed envelope on success. -/
def decodePagination (j : Json) : Option PaginationEnvelope :=
  match j with
  | Json.obj _ =>
    match jGet j "items", jGet j "totalCount", jGet j "pageNumber",
        jGet j "pageSize", jGet j "totalPages", jGet j "hasPrevious",
        jGet j "hasNext" with
    | some (Json.arr xs), some (Json.num tc), some (Json.num pn),
      some (Json.num ps), some (Json.num tp), some (Json.bool hp),
      some (Json.bool hn) =>
        some { items := xs, totalCount := tc, pageNumber := pn,
               pageSize := ps, totalPages := tp, hasPrevious := hp,
               hasNext := hn }
    | _, _, _, _, _, _, _ => none
  | _ => none

/-- Build a pagination response body with the given field values. -/
def mkPaginationJson (xs : List Json) (tc pn ps tp : Int) (hp hn : Bool) :
    Json :=
  Json.obj
    [("items", Json.arr xs), ("totalCount", Json.num tc),
     ("pageNumber", Json.num pn), ("pageSize", Json.num ps),
     ("totalPages", Json.num tp), ("hasPrevious", Json.bool hp),
     ("hasNext", Json.bool hn)]

/-- Ceiling division, `ceil(a / b)` for the positive divisors the spec's
invariant concerns. -/
def ceilDiv (a b : Int) : Int := (a + b - 1) / b

/-- The spec's pagination invariant:
`totalPages = ceil(totalCount / pageSize)` and
`hasNext = (pageNumber < totalPages)`. -/
def paginationInvariant (e : PaginationEnvelope) : Prop :=
  e.totalPages = ceilDiv e.totalCount e.pageSize ∧
  e.hasNext = decide (e.pageNumber < e.totalPages)

/-- `MovieSchema` of `types.ts` applied to one item. -/
def movieItemCheck (j : Json) : Bool :=
  jhas j "id" isNum && jhas j "title" isStr && jhas j "releaseYear" isNum &&
  jhas j "plot" isNullableStr && jhas j "runtimeMinutes" isNum &&
  jhas j "posterUrl" isNullableStr && jhas j "directorName" isStr &&
  jhas j "genres" isStrArr && jhas j "actors" isStrArr

/-- `MovieResponseSchema` of `types.ts`: the pagination envelope with every
item passing `MovieSchema`. -/
def movieResponseCheck (j : Json) : Bool :=
  match decodePagination j with
  | some env => env.items.all movieItemCheck
  | none => false

/-- One entry of the `movies` array inside the people service's
`PersonSchema`. -/
def personMovieCheck (j : Json) : Bool :=
  jhas j "id" isNum && jhas j "title" isStr &&
  jhas j "posterUrl" isNullableStr && jhas j "releaseDate" isNullableStr &&
  jhas j "character" isNullableStr && jhas j "job" isNullableStr

/-- `z.array(...)` of person-movie entries. -/
def isPersonMovieArr : Json → Bool
  | Json.arr xs => xs.all personMovieCheck
  | _ => false

/-- `PersonSchema` of the people service: required `id`/`name`, optional
nullable profile fields, boolean flags with defaults, and a defaulted
`movies` array. -/
def personCheck (j : Json) : Bool :=
  match j with
  | Json.obj _ =>
    jhas j "id" isNum && jhas j "name" isStr &&
    joptional j "profileImageUrl" isNullableStr &&
    joptional j "biography" isNullableStr &&
    joptional j "birthDate" isNullableStr &&
    joptional j "deathDate" isNullableStr &&
    joptional j "placeOfBirth" isNullableStr &&
    joptional j "isDirector" isBool && joptional j "isActor" isBool &&
    joptional j "movies" isPersonMovieArr
  | _ => false

/-- `GenreSchema` of the genre service (the full audited shape). -/
def genreFullCheck (j : Json) : Bool :=
  jhas j "id" isNum && jhas j "name" isStr &&
  jhas j "description" isNullableStr && jhas j "createdAt" isStr &&
  jhas j "modifiedAt" isNullableStr && jhas j "createdBy" isNullableStr &&
  jhas j "modifiedBy" isNullableStr && jhas j "isDeleted" isBool

/-- `PopularGenreSchema`: `{ genre, movieCount }`. -/
def popularGenreCheck (j : Json) : Bool :=
  jhas j "genre" genreFullCheck && jhas j "movieCount" isNum

/-- `z.array(PopularGenreSchema)` acceptance. -/
def popularGenresArrCheck : Json → Bool
  | Json.arr xs => xs.all popularGenreCheck
  | _ => false

/-- The error a resource-service operation can surface: a transport/HTTP
failure propagated from the client, or a schema-validation failure (a
thrown `ZodError`). -/
inductive ServiceError where
  | transport (msg : String)
  | validation (msg : String)
deriving DecidableEq

/-- `MovieService.getMovies`: on HTTP success the raw `response.data` is
returned as-is — no schema validation is performed. -/
def getMovies_result (resp : Except String Json) : Except ServiceError Json :=
  match resp with
  | Except.error m => Except.error (ServiceError.transport m)
  | Except.ok body => Except.ok body

/-- `MovieService.searchMovies`: the raw `response.data` is returned
unvalidated. -/
def searchMovies_result (resp : Except String Json) :
    Except ServiceError Json :=
  match resp with
  | Except.error m => Except.error (ServiceError.transport m)
  | Except.ok body => Except.ok body

/-- `ActorService.getActors`: the raw `response.data` is returned
unvalidated. -/
def getActors_result (resp : Except String Json) : Except ServiceError Json :=
  match resp with
  | Except.error m => Except.error (ServiceError.transport m)
  | Except.ok body => Except.ok body

/-- `DirectorService.getDirectors`: the raw `response.data` is returned
unvalidated. -/
def getDirectors_result (resp : Except String Json) :
    Except ServiceError Json :=
  match resp with
  | Except.error m => Except.error (ServiceError.transport m)
  | Except.ok body => Except.ok body

/-- `GenreService.getGenres`: the raw `response.data` is returned
unvalidated. -/
def getGenres_result (resp : Except String Json) : Except ServiceError Json :=
  match resp with
  | Except.error m => Except.error (ServiceError.transport m)
  | Except.ok body => Except.ok body

/-- `peopleService.getPersonDetails`: the body is parsed with
`PersonSchema.parse`; a mismatch throws a `ZodError` (re-thrown by the
catch block), distinct from a transport error, and a transport failure is
re-thrown as such. -/
def getPersonDetails_result (resp : Except String Json) :
    Except ServiceError Json :=
  match resp with
  | Except.error m => Except.error (ServiceError.transport m)
  | Except.ok body =>
      if personCheck body then Except.ok body
      else Except.error (ServiceError.validation "ZodError")

/-- `GenreService.getPopularGenres`: the body is parsed with
`z.array(PopularGenreSchema)`; a mismatch throws a `ZodError`. -/
def getPopularGenres_result (resp : Except String Json) :
    Except ServiceError Json :=
  match resp with
  | Except.error m => Except.error (ServiceError.transport m)
  | Except.ok body =>
      if popularGenresArrCheck body then Except.ok body
      else Except.error (ServiceError.validation "ZodError")

end MovieApp

namespace MovieApp

/-! ### Claim theorems: HTTP client -/

/-- C1 counterexample.  The empty string is a storable token value (`login`
persists `response.data.token` unguarded), and here one is stored under the
token storage key; yet the dispatched request carries no `Authorization`
header, because the interceptor's `if (token)` truthiness guard treats `''`
as absent — refuting the claim that every stored token is attached as a
bearer header. -/
theorem c1_empty_token_counterexample :
    Store.get [(TOKEN_STORAGE_KEY, "")] TOKEN_STORAGE_KEY = some "" ∧
    dispatchRequest true [(TOKEN_STORAGE_KEY, "")] [] =
      (Except.ok [],
       [Effect.netCheck, Effect.storageRead TOKEN_STORAGE_KEY,
        Effect.httpSend []]) ∧
    getHeader [] "Authorization" = none :=
  ⟨rfl, rfl, rfl⟩

/-- C1 amended.  For every request dispatched while online: a stored
non-empty token is attached as `Authorization: Bearer <token>` on the sent
request; with no stored token — or with the stored empty string, which the
`if (token)` truthiness guard treats as absent — the config passes through
unchanged and the sent request carries no `Authorization` header. -/
theorem c1_bearer_token_header (store : Store) (config : Headers)
    (hnoauth : getHeader config "Authorization" = none) :
    (∀ t, store.get TOKEN_STORAGE_KEY = some t → t ≠ "" →
        ∃ cfg, dispatchRequest true store config =
            (Except.ok cfg,
             [Effect.netCheck, Effect.storageRead TOKEN_STORAGE_KEY,
              Effect.httpSend cfg]) ∧
          getHeader cfg "Authorization" = some ("Bearer " ++ t)) ∧
    (store.get TOKEN_STORAGE_KEY = none ∨
        store.get TOKEN_STORAGE_KEY = some "" →
        dispatchRequest true store config =
            (Except.ok config,
             [Effect.netCheck, Effect.storageRead TOKEN_STORAGE_KEY,
              Effect.httpSend config]) ∧
          getHeader config "Authorization" = none) := by
  constructor
  · intro t ht hne
    refine ⟨setHeader config "Authorization" ("Bearer " ++ t), ?_, ?_⟩
    · simp [dispatchRequest, requestInterceptor, ht, jsTruthy, hne]
    · exact getHeader_setHeader_self config "Authorization" ("Bearer " ++ t)
  · intro ht
    cases ht with
    | inl h =>
      exact ⟨by simp [dispatchRequest, requestInterceptor, h, jsTruthy],
        hnoauth⟩
    | inr h =>
      exact ⟨by simp [dispatchRequest, requestInterceptor, h, jsTruthy],
        hnoauth⟩

theorem c1_bearer_token_header_witness :
    (∃ cfg,
        dispatchRequest true [(TOKEN_STORAGE_KEY, "abc123")] [] =
          (Except.ok cfg,
           [Effect.netCheck, Effect.storageRead TOKEN_STORAGE_KEY,
            Effect.httpSend cfg]) ∧
        getHeader cfg "Authorization" = some "Bearer abc123") ∧
    dispatchRequest true [] [] =
      (Except.ok [],
       [Effect.netCheck, Effect.storageRead TOKEN_STORAGE_KEY,
        Effect.httpSend []]) := by
  refine ⟨?_, ?_⟩
  · exact (c1_bearer_token_header [(TOKEN_STORAGE_KEY, "abc123")] [] rfl).1
      "abc123" rfl (by decide)
  · exact ((c1_bearer_token_header [] [] rfl).2 (Or.inl rfl)).1

/-- C2.  A 401 response makes the client remove the stored token (a
subsequent read of the token key returns absent, with no network effect in
the trace) and reject with the session-expired error; every non-401 error
passes through unmodified with storage untouched. -/
theorem c2_unauthorized_clears_token (e : AxiosError) (store : Store) :
    (e.status = some 401 →
        responseErrorInterceptor e store =
          (RespOutcome.sessionExpired "Session expired. Please login again.",
           apiLogout store, [Effect.storageRemove TOKEN_STORAGE_KEY]) ∧
        (apiLogout store).get TOKEN_STORAGE_KEY = none ∧
        (∀ h, Effect.httpSend h ∉ [Effect.storageRemove TOKEN_STORAGE_KEY])) ∧
    (e.status ≠ some 401 →
        responseErrorInterceptor e store =
          (RespOutcome.passthrough e, store, [])) := by
  constructor
  · intro h401
    refine ⟨by simp [responseErrorInterceptor, h401], ?_, ?_⟩
    · exact Store.get_remove_self store TOKEN_STORAGE_KEY
    · intro h hmem
      simp at hmem
  · intro hne
    simp [responseErrorInterceptor, hne]

theorem c2_unauthorized_clears_token_witness :
    (responseErrorInterceptor ⟨some 401, "Unauthorized"⟩
        [(TOKEN_STORAGE_KEY, "abc123")] =
      (RespOutcome.sessionExpired "Session expired. Please login again.",
       apiLogout [(TOKEN_STORAGE_KEY, "abc123")],
       [Effect.storageRemove TOKEN_STORAGE_KEY]) ∧
     (apiLogout [(TOKEN_STORAGE_KEY, "abc123")]).get TOKEN_STORAGE_KEY =
       none ∧
     (∀ h, Effect.httpSend h ∉ [Effect.storageRemove TOKEN_STORAGE_KEY])) ∧
    responseErrorInterceptor ⟨some 500, "Server error"⟩ [] =
      (RespOutcome.passthrough ⟨some 500, "Server error"⟩, [], []) := by
  refine ⟨?_, ?_⟩
  · exact (c2_unauthorized_clears_token ⟨some 401, "Unauthorized"⟩
      [(TOKEN_STORAGE_KEY, "abc123")]).1 rfl
  · exact (c2_unauthorized_clears_token ⟨some 500, "Server error"⟩ []).2
      (by decide)

/-- C3.  A request attempted while offline rejects with the
`'No internet connection'` error; the trace holds only the connectivity
check — no storage read (so no Authorization attachment) and no HTTP send
happen. -/
theorem c3_offline_fails_fast (store : Store) (config : Headers) :
    dispatchRequest false store config =
      (Except.error "No internet connection", [Effect.netCheck]) ∧
    (∀ h, Effect.httpSend h ∉ (dispatchRequest false store config).2) ∧
    (∀ k, Effect.storageRead k ∉ (dispatchRequest false store config).2) := by
  refine ⟨rfl, ?_, ?_⟩
  · intro h hmem
    simp [dispatchRequest, requestInterceptor] at hmem
  · intro k hmem
    simp [dispatchRequest, requestInterceptor] at hmem

/-! ### Claim theorems: auth session -/

/-- C6.  In every auth state reachable from the initial state by reducer
actions, `isAuthenticated` holds exactly when the `user` field is
non-null. -/
theorem c6_authenticated_iff_user (s : AuthState) (h : Reachable s) :
    s.isAuthenticated = true ↔ s.user ≠ none := by
  induction h with
  | init => simp [initialState]
  | step s a _ ih =>
    cases a with
    | loginRequest => simpa [authReducer] using ih
    | registerRequest => simpa [authReducer] using ih
    | loginSuccess u => simp [authReducer]
    | registerSuccess u => simp [authReducer]
    | loginFailure m => simp [authReducer]
    | registerFailure m => simp [authReducer]
    | logout => simp [authReducer]
    | clearError => simpa [authReducer] using ih

theorem c6_authenticated_iff_user_witness :
    ((authReducer initialState
        (AuthAction.loginSuccess ⟨"alice", "user"⟩)).isAuthenticated = true ↔
      (authReducer initialState
        (AuthAction.loginSuccess ⟨"alice", "user"⟩)).user ≠ none) :=
  c6_authenticated_iff_user _
    (Reachable.step initialState (AuthAction.loginSuccess ⟨"alice", "user"⟩)
      Reachable.init)

/-- C9.  When the register HTTP call succeeds but the response carries no
(truthy) token, the storage is left entirely unchanged (in particular the
token key and the user-data key are not written), yet `REGISTER_SUCCESS` is
dispatched with a user payload — making any session state authenticated with
that user — and `register` returns `true`. -/
theorem c9_register_no_token_still_authenticated (username : String)
    (resp : RegisterResponse) (store : Store) (s : AuthState)
    (htok : jsTruthy resp.token = false) :
    ∃ user : User,
      registerOnSuccess username resp store =
        (store, AuthAction.registerSuccess user, true) ∧
      (registerOnSuccess username resp store).1.get TOKEN_STORAGE_KEY =
        store.get TOKEN_STORAGE_KEY ∧
      (registerOnSuccess username resp store).1.get USER_DATA_KEY =
        store.get USER_DATA_KEY ∧
      (authReducer s (AuthAction.registerSuccess user)).isAuthenticated =
        true ∧
      (authReducer s (AuthAction.registerSuccess user)).user = some user := by
  refine ⟨{ username := jsOr resp.username username,
            role := jsOr resp.role "user" }, ?_, ?_, ?_, ?_, ?_⟩
  · simp [registerOnSuccess, htok]
  · simp [registerOnSuccess, htok]
  · simp [registerOnSuccess, htok]
  · simp [authReducer]
  · simp [authReducer]

theorem c9_register_no_token_still_authenticated_witness :
    ∃ user : User,
      registerOnSuccess "bob" ⟨some "bob", none, none⟩
          [(USER_DATA_KEY, "old")] =
        ([(USER_DATA_KEY, "old")], AuthAction.registerSuccess user, true) ∧
      (registerOnSuccess "bob" ⟨some "bob", none, none⟩
          [(USER_DATA_KEY, "old")]).1.get TOKEN_STORAGE_KEY =
        Store.get [(USER_DATA_KEY, "old")] TOKEN_STORAGE_KEY ∧
      (registerOnSuccess "bob" ⟨some "bob", none, none⟩
          [(USER_DATA_KEY, "old")]).1.get USER_DATA_KEY =
        Store.get [(USER_DATA_KEY, "old")] USER_DATA_KEY ∧
      (authReducer initialState
        (AuthAction.registerSuccess user)).isAuthenticated = true ∧
      (authReducer initialState (AuthAction.registerSuccess user)).user =
        some user :=
  c9_register_no_token_still_authenticated "bob" ⟨some "bob", none, none⟩
    [(USER_DATA_KEY, "old")] initialState rfl

/-- C10.  The api-client `logout` removes exactly the token key: afterwards
the token key reads absent while the user-data key and every other key read
unchanged; the full `logoutUser` additionally removes the user-data key,
leaving all remaining keys unchanged. -/
theorem c10_logout_clears_only_token (store : Store) (k : String)
    (hk : k ≠ TOKEN_STORAGE_KEY) (hk' : k ≠ USER_DATA_KEY) :
    (apiLogout store).get TOKEN_STORAGE_KEY = none ∧
    (apiLogout store).get USER_DATA_KEY = store.get USER_DATA_KEY ∧
    (apiLogout store).get k = store.get k ∧
    (logoutUserStorage store).get TOKEN_STORAGE_KEY = none ∧
    (logoutUserStorage store).get USER_DATA_KEY = none ∧
    (logoutUserStorage store).get k = store.get k := by
  have hud : USER_DATA_KEY ≠ TOKEN_STORAGE_KEY := by decide
  refine ⟨Store.get_remove_self store TOKEN_STORAGE_KEY,
    Store.get_remove_other store TOKEN_STORAGE_KEY USER_DATA_KEY hud,
    Store.get_remove_other store TOKEN_STORAGE_KEY k hk, ?_, ?_, ?_⟩
  · unfold logoutUserStorage
    rw [Store.get_remove_other _ USER_DATA_KEY TOKEN_STORAGE_KEY hud.symm]
    exact Store.get_remove_self store TOKEN_STORAGE_KEY
  · exact Store.get_remove_self _ USER_DATA_KEY
  · unfold logoutUserStorage
    rw [Store.get_remove_other _ USER_DATA_KEY k hk']
    exact Store.get_remove_other store TOKEN_STORAGE_KEY k hk

theorem c10_logout_clears_only_token_witness :
    (apiLogout [(TOKEN_STORAGE_KEY, "abc123"), (USER_DATA_KEY, "u"),
        ("theme", "dark")]).get TOKEN_STORAGE_KEY = none ∧
    (apiLogout [(TOKEN_STORAGE_KEY, "abc123"), (USER_DATA_KEY, "u"),
        ("theme", "dark")]).get USER_DATA_KEY =
      Store.get [(TOKEN_STORAGE_KEY, "abc123"), (USER_DATA_KEY, "u"),
        ("theme", "dark")] USER_DATA_KEY ∧
    (apiLogout [(TOKEN_STORAGE_KEY, "abc123"), (USER_DATA_KEY, "u"),
        ("theme", "dark")]).get "theme" =
      Store.get [(TOKEN_STORAGE_KEY, "abc123"), (USER_DATA_KEY, "u"),
        ("theme", "dark")] "theme" ∧
    (logoutUserStorage [(TOKEN_STORAGE_KEY, "abc123"), (USER_DATA_KEY, "u"),
        ("theme", "dark")]).get TOKEN_STORAGE_KEY = none ∧
    (logoutUserStorage [(TOKEN_STORAGE_KEY, "abc123"), (USER_DATA_KEY, "u"),
        ("theme", "dark")]).get USER_DATA_KEY = none ∧
    (logoutUserStorage [(TOKEN_STORAGE_KEY, "abc123"), (USER_DATA_KEY, "u"),
        ("theme", "dark")]).get "theme" =
      Store.get [(TOKEN_STORAGE_KEY, "abc123"), (USER_DATA_KEY, "u"),
        ("theme", "dark")] "theme" :=
  c10_logout_clears_only_token
    [(TOKEN_STORAGE_KEY, "abc123"), (USER_DATA_KEY, "u"), ("theme", "dark")]
    "theme" (by decide) (by decide)

/-! ### Claim theorems: search query and accumulation -/

theorem filter_genreIds_single {c : Prop} [Decidable c] (k v : String)
    (h : (k == "GenreIds") = false) :
    List.filter (fun kv => kv.1 == "GenreIds")
      (if c then [(k, v)] else []) = [] := by
  split <;> simp [List.filter, h]

theorem filter_genreIds_map (ids : List Int) :
    List.filter (fun kv => kv.1 == "GenreIds")
        (ids.map (fun g => ("GenreIds", toString g))) =
      ids.map (fun g => ("GenreIds", toString g)) := by
  induction ids with
  | nil => rfl
  | cons g ids ih => simp [List.filter, ih]

/-- C8.  In the query string built by `searchMovies`, the `GenreIds`
occurrences are exactly one repeated parameter per genre id, in list order,
each carrying a single id's decimal string; an absent or empty `genreIds`
list produces no `GenreIds` parameter at all. -/
theorem c8_genre_ids_serialized_repeated (p : MovieSearchParams) :
    List.filter (fun kv => kv.1 == "GenreIds") (searchMoviesQuery p) =
      (p.genreIds.getD []).map (fun g => ("GenreIds", toString g)) := by
  have hs : ("SearchTerm" == "GenreIds") = false := by decide
  have hpn : ("PageNumber" == "GenreIds") = false := by decide
  have hps : ("PageSize" == "GenreIds") = false := by decide
  have hsb : ("SortBy" == "GenreIds") = false := by decide
  have hso : ("SortOrder" == "GenreIds") = false := by decide
  have hry : ("ReleaseYear" == "GenreIds") = false := by decide
  have hv : ("version" == "GenreIds") = false := by decide
  cases hg : p.genreIds with
  | none =>
    simp [searchMoviesQuery, hg, List.filter_append, filter_genreIds_single,
      hs, hpn, hps, hsb, hso, hry, List.filter, hv]
  | some ids =>
    cases ids with
    | nil =>
      simp [searchMoviesQuery, hg, List.filter_append,
        filter_genreIds_single, hs, hpn, hps, hsb, hso, hry, List.filter, hv]
    | cons g rest =>
      simp [searchMoviesQuery, hg, List.filter_append,
        filter_genreIds_single, hs, hpn, hps, hsb, hso, hry, List.filter, hv,
        filter_genreIds_map]

/-- C7 counterexample.  Three results arrive through the home screen's
accumulation effect, all issued with the identical fixed base parameters
(the screen requests `getMovies(page, 10)` and has no filter parameters):
pages 1, 2, then 1 again (a refresh).  The third result resets the
accumulated list even though no base parameter changed, so the reset is
keyed on the page number alone, contrary to the claim that a reset happens
exactly when the base parameters (not merely the page number) change. -/
theorem c7_reset_counterexample :
    accumulateRun
        [(1, [mkMovie 1 "A"]), (2, [mkMovie 2 "B"]), (1, [mkMovie 3 "C"])] =
      [mkMovie 3 "C"] ∧
    accumulateRun
        [(1, [mkMovie 1 "A"]), (2, [mkMovie 2 "B"]), (1, [mkMovie 3 "C"])] ≠
      [mkMovie 1 "A", mkMovie 2 "B", mkMovie 3 "C"] := by
  exact ⟨rfl, by decide⟩

/-- C7 amended.  Page 1 followed by page 2 accumulates to the concatenation
(page-1 items first, length the sum of the item counts); the accumulated
list is replaced by the incoming items exactly when the incoming result is
for page 1 (initial load or refresh) and is appended to otherwise — the
reset is keyed on the page number, not on a change of base parameters. -/
theorem c7_accumulation_amended (items1 items2 items prev : List Movie)
    (p : Nat) (hp : p ≠ 1) :
    accumulate 2 items2 (accumulate 1 items1 prev) = items1 ++ items2 ∧
    (accumulate 2 items2 (accumulate 1 items1 prev)).length =
      items1.length + items2.length ∧
    accumulate 1 items prev = items ∧
    accumulate p items prev = prev ++ items := by
  refine ⟨by simp [accumulate], by simp [accumulate], by simp [accumulate],
    ?_⟩
  simp [accumulate, hp]

/-! ### Claim theorems: response validation and the pagination schema -/

/-- C4 counterexample.  A response body that is an empty object fails the
declared `MovieResponseSchema`, yet `MovieService.getMovies` returns it to
the caller as a success instead of raising a validation error: the movie
service performs no schema validation. -/
theorem c4_unvalidated_counterexample :
    movieResponseCheck (Json.obj []) = false ∧
    getMovies_result (Except.ok (Json.obj [])) =
      Except.ok (Json.obj []) :=
  ⟨rfl, rfl⟩

/-- C4 amended.  Only the people-service operations and the genre service's
popular-genres operation validate the response body against their declared
schema, raising on mismatch a validation error distinct from any transport
error; the movie, actor, director, and genre list/get/search operations
return the raw body unvalidated (shown here on their representative read
operations, all of which share the `return response.data` shape). -/
theorem c4_validation_only_where_parsed (body : Json) (m : String) :
    (personCheck body = false →
        getPersonDetails_result (Except.ok body) =
          Except.error (ServiceError.validation "ZodError")) ∧
    (personCheck body = true →
        getPersonDetails_result (Except.ok body) = Except.ok body) ∧
    getPersonDetails_result (Except.error m) =
      Except.error (ServiceError.transport m) ∧
    (popularGenresArrCheck body = false →
        getPopularGenres_result (Except.ok body) =
          Except.error (ServiceError.validation "ZodError")) ∧
    (∀ m1 m2, ServiceError.validation m1 ≠ ServiceError.transport m2) ∧
    getMovies_result (Except.ok body) = Except.ok body ∧
    searchMovies_result (Except.ok body) = Except.ok body ∧
    getActors_result (Except.ok body) = Except.ok body ∧
    getDirectors_result (Except.ok body) = Except.ok body ∧
    getGenres_result (Except.ok body) = Except.ok body := by
  refine ⟨?_, ?_, rfl, ?_, ?_, rfl, rfl, rfl, rfl, rfl⟩
  · intro h
    simp [getPersonDetails_result, h]
  · intro h
    simp [getPersonDetails_result, h]
  · intro h
    simp [getPopularGenres_result, h]
  · intro m1 m2 h
    cases h

theorem c4_validation_only_where_parsed_witness :
    getPersonDetails_result (Except.ok (Json.obj [])) =
      Except.error (ServiceError.validation "ZodError") ∧
    getPersonDetails_result
        (Except.ok (Json.obj [("id", Json.num 1), ("name", Json.str "Ann")]))
      = Except.ok (Json.obj [("id", Json.num 1), ("name", Json.str "Ann")]) ∧
    getPersonDetails_result (Except.error "timeout") =
      Except.error (ServiceError.transport "timeout") ∧
    getPopularGenres_result (Except.ok (Json.obj [])) =
      Except.error (ServiceError.validation "ZodError") ∧
    ServiceError.validation "ZodError" ≠ ServiceError.transport "timeout" ∧
    getMovies_result (Except.ok (Json.obj [])) =
      Except.ok (Json.obj []) := by
  have h1 := c4_validation_only_where_parsed (Json.obj []) "timeout"
  have h2 := c4_validation_only_where_parsed
    (Json.obj [("id", Json.num 1), ("name", Json.str "Ann")]) "timeout"
  exact ⟨h1.1 rfl, h2.2.1 rfl, h1.2.2.1, h1.2.2.2.1 rfl,
    h1.2.2.2.2.1 "ZodError" "timeout", h1.2.2.2.2.2.1⟩

/-- C5 counterexample.  A concrete body with `totalCount = 0`,
`pageNumber = 1`, `pageSize = 10` but `totalPages = 5` passes the declared
pagination schema (the client accepts it), yet violates
`totalPages = ceil(totalCount / pageSize)`: acceptance by the schema does
not guarantee the arithmetic invariant. -/
theorem c5_invariant_counterexample :
    decodePagination (mkPaginationJson [] 0 1 10 5 false true) =
      some { items := [], totalCount := 0, pageNumber := 1, pageSize := 10,
             totalPages := 5, hasPrevious := false, hasNext := true } ∧
    ¬ paginationInvariant
        { items := [], totalCount := 0, pageNumber := 1, pageSize := 10,
          totalPages := 5, hasPrevious := false, hasNext := true } := by
  refine ⟨rfl, ?_⟩
  unfold paginationInvariant ceilDiv
  decide

/-- C5 amended.  The declared pagination schema checks only the shape of a
response — `items` an array, the four count fields numbers, the two flags
booleans, with missing fields rejected — and accepts every numeric
combination of those fields; the arithmetic relations
`totalPages = ceil(totalCount / pageSize)` and
`hasNext = (pageNumber < totalPages)` are not enforced on accepted
responses. -/
theorem c5_schema_checks_shape_only (xs : List Json) (tc pn ps tp : Int)
    (hp hn : Bool) :
    decodePagination (mkPaginationJson xs tc pn ps tp hp hn) =
      some { items := xs, totalCount := tc, pageNumber := pn,
             pageSize := ps, totalPages := tp, hasPrevious := hp,
             hasNext := hn } ∧
    decodePagination (Json.obj []) = none :=
  ⟨rfl, rfl⟩

theorem c7_accumulation_amended_witness :
    (accumulate 2 [mkMovie 2 "B"] (accumulate 1 [mkMovie 1 "A"] []) =
      [mkMovie 1 "A"] ++ [mkMovie 2 "B"] ∧
     (accumulate 2 [mkMovie 2 "B"]
        (accumulate 1 [mkMovie 1 "A"] [])).length =
       [mkMovie 1 "A"].length + [mkMovie 2 "B"].length ∧
     accumulate 1 [mkMovie 3 "C"] [mkMovie 1 "A", mkMovie 2 "B"] =
       [mkMovie 3 "C"] ∧
     accumulate 2 [mkMovie 3 "C"] [mkMovie 1 "A", mkMovie 2 "B"] =
       [mkMovie 1 "A", mkMovie 2 "B"] ++ [mkMovie 3 "C"]) :=
  c7_accumulation_amended [mkMovie 1 "A"] [mkMovie 2 "B"] [mkMovie 3 "C"]
    [mkMovie 1 "A", mkMovie 2 "B"] 2 (by decide)

end MovieApp
